import Mathlib

/-
  Verification development for the role-based admin subsystem of the
  turkish-mathbook repository.

  The embedded code:
  - src/server.js                      : the create-user HTTP handler and its
                                         input validators (validateEmail,
                                         validateRole, the ordered checks).
  - src/server/security.js             : the stricter validateEmail variant
                                         that also bounds the length by 254.
  - src/src/contexts/AdminContext.tsx  : the client-side policy functions
                                         canManageUser and canKickUser and the
                                         createUser / updateUserRole /
                                         deleteUser flows.
  - src/supabase/migrations/001_add_roles.sql : the handle_new_user trigger
                                         function and the owner update policy.

  Roles are plain strings at runtime (the TS union type does not exist at
  runtime and database values are unconstrained strings), so policy
  functions are embedded over String, with Option String for the nullable
  actor role held in React state.
-/

/-- The recognized roles, as listed in validateRole in server.js. -/
def roles : List String := ["owner", "admin", "user"]

/-- validateRole from server.js: membership in the recognized role list. -/
def validateRole (role : String) : Bool :=
  roles.contains role

/-- The character class of the JavaScript regex escape for whitespace,
written out explicitly (tab, line feed, vertical tab, form feed, carriage
return, space, and the Unicode space characters). -/
def jsWhitespace (c : Char) : Bool :=
  c == '\t' || c == '\n' || c == '\x0b' || c == '\x0c' || c == '\r' || c == ' ' ||
  c == '\u00A0' || c == '\u1680' || ('\u2000' ≤ c && c ≤ '\u200A') ||
  c == '\u2028' || c == '\u2029' || c == '\u202F' || c == '\u205F' ||
  c == '\u3000' || c == '\uFEFF'

/-- A character admitted by the bracket class of the email regex: anything
that is neither whitespace nor an at sign. -/
def emailAtomChar (c : Char) : Bool :=
  !(jsWhitespace c) && c != '@'

/-- validateEmail from server.js: the test of the anchored regex
consisting of one or more non-space non-at characters, an at sign, one or
more non-space non-at characters, a dot, and one or more non-space non-at
characters.  Equivalently: the string splits at its unique at sign into a
nonempty local part and a nonempty domain, both built from the bracket
class, and the domain contains a dot at an internal position.  Note there
is no length bound here. -/
def validateEmail (email : String) : Bool :=
  let cs := email.toList
  let lp := cs.takeWhile (fun c => c != '@')
  match cs.dropWhile (fun c => c != '@') with
  | '@' :: dp =>
      !lp.isEmpty && !dp.isEmpty &&
      lp.all emailAtomChar && dp.all emailAtomChar &&
      ((dp.drop 1).dropLast.contains '.')
  | _ => false

/-- validateEmail from src/server/security.js: the same regex test plus the
254-character length bound.  The live handler in server.js does not use
this function. -/
def securityValidateEmail (email : String) : Bool :=
  validateEmail email && email.length ≤ 254

/-- canManageUser from AdminContext.tsx.  The actor role is the nullable
userRole React state; the falsy guard returns false on null. -/
def canManageUser (userRole : Option String) (targetRole : String) : Bool :=
  match userRole with
  | none => false
  | some r =>
    if r == "owner" then true
    else if r == "admin" && targetRole == "user" then true
    else false

/-- canKickUser from AdminContext.tsx. -/
def canKickUser (userRole : Option String) (targetRole : String) : Bool :=
  match userRole with
  | none => false
  | some r =>
    if r == "owner" && targetRole != "owner" then true
    else if r == "admin" && targetRole == "user" then true
    else false

/-- The isAdmin flag computed in AdminContext.tsx: the actor role is admin
or owner. -/
def isAdminFlag (userRole : Option String) : Bool :=
  userRole == some "admin" || userRole == some "owner"

/-- Combined decision actually applied by createUser and updateUserRole in
AdminContext.tsx: the explicit owner pre-check followed by canManageUser. -/
def canCreateComposite (userRole : Option String) (targetRole : String) : Bool :=
  targetRole != "owner" && canManageUser userRole targetRole

/-- Modelled from the spec wording of canAssignRole in section 4.2, for
comparison with the decision the code computes: target owner is always
false, an owner actor may assign anything else, an admin actor only the
user role, everyone else nothing. -/
def specCanAssignRole (actorRole targetRole : String) : Bool :=
  if targetRole == "owner" then false
  else if actorRole == "owner" then true
  else if actorRole == "admin" then targetRole == "user"
  else false

/-- Outcomes of the client-side createUser function in AdminContext.tsx, in
source order: the isAdmin guard, the owner-role guard, the canManageUser
guard, the session guard, and finally the POST to the gateway endpoint. -/
inductive ClientCreateResult
  | errOnlyAdmins
  | errOwnerRole
  | errCannotAssign
  | errNoSession
  | invokeGateway
deriving DecidableEq

/-- createUser from AdminContext.tsx as a decision function.  hasSession
models whether supabase.auth.getSession returns a session.  Note the
session check comes after the role checks in the source. -/
def clientCreateUser (userRole : Option String) (hasSession : Bool)
    (role : String) : ClientCreateResult :=
  if !(isAdminFlag userRole) then .errOnlyAdmins
  else if role == "owner" then .errOwnerRole
  else if !(canManageUser userRole role) then .errCannotAssign
  else if !hasSession then .errNoSession
  else .invokeGateway

/-- Outcomes of updateUserRole in AdminContext.tsx, in source order. -/
inductive UpdateRoleResult
  | errOwnerRole
  | errCannotAssignNew
  | errFetchTarget
  | errCannotModifyTarget
  | proceedUpdate
deriving DecidableEq

/-- updateUserRole from AdminContext.tsx as a decision function.
targetRole is the role fetched for the target id, none modelling a fetch
error.  There is no comparison of the target id with the acting account. -/
def clientUpdateUserRole (userRole : Option String) (targetRole : Option String)
    (newRole : String) : UpdateRoleResult :=
  if newRole == "owner" then .errOwnerRole
  else if !(canManageUser userRole newRole) then .errCannotAssignNew
  else
    match targetRole with
    | none => .errFetchTarget
    | some tr =>
      if !(canManageUser userRole tr) then .errCannotModifyTarget
      else .proceedUpdate

/-- Outcomes of deleteUser in AdminContext.tsx, in source order. -/
inductive DeleteResult
  | errFetchTarget
  | errCannotKick
  | errNoSession
  | invokeGateway
deriving DecidableEq

/-- deleteUser from AdminContext.tsx as a decision function. -/
def clientDeleteUser (userRole : Option String) (targetRole : Option String)
    (hasSession : Bool) : DeleteResult :=
  match targetRole with
  | none => .errFetchTarget
  | some tr =>
    if !(canKickUser userRole tr) then .errCannotKick
    else if !hasSession then .errNoSession
    else .invokeGateway

/-- The actor role a mounted AdminContext resolves for a logged-in account:
the role stored in the profiles table, defaulting to the user role when the
row is missing or the fetch fails (fetchUserRole in AdminContext.tsx). -/
def effectiveUserRole (ledger : String → Option String) (actorId : String) : String :=
  (ledger actorId).getD "user"

/-- updateUserRole for concrete account ids: the actor role comes from the
role ledger for the acting id, the target role from the ledger for the
target id. -/
def updateUserRoleFlow (ledger : String → Option String) (actorId targetId : String)
    (newRole : String) : UpdateRoleResult :=
  clientUpdateUserRole (some (effectiveUserRole ledger actorId)) (ledger targetId) newRole

/-- deleteUser for concrete account ids. -/
def deleteUserFlow (ledger : String → Option String) (actorId targetId : String)
    (hasSession : Bool) : DeleteResult :=
  clientDeleteUser (some (effectiveUserRole ledger actorId)) (ledger targetId) hasSession

/-- Body of the create-user request in server.js: none models an absent
field. -/
structure CreateReq where
  email : Option String
  password : Option String
  role : Option String
deriving DecidableEq

/-- A field fails the JavaScript falsy test for required fields when it is
absent or the empty string. -/
def isMissing (f : Option String) : Bool :=
  match f with
  | none => true
  | some s => s == ""

/-- Responses of the create-user handler in server.js, one constructor per
return site, in source order. -/
inductive ServerResp
  | notConfigured
  | missingFields
  | invalidEmail
  | passwordTooShort
  | passwordTooLong
  | invalidRole
  | ownerForbidden
  | authError (msg : String)
  | partialFailure (userId : String) (msg : String)
  | success (userId : String) (email : String) (role : String)
deriving DecidableEq

/-- The HTTP status attached to each response in server.js. -/
def statusOf : ServerResp → Nat
  | .notConfigured => 503
  | .missingFields => 400
  | .invalidEmail => 400
  | .passwordTooShort => 400
  | .passwordTooLong => 400
  | .invalidRole => 400
  | .ownerForbidden => 403
  | .authError _ => 400
  | .partialFailure _ _ => 500
  | .success _ _ _ => 200

/-- The owner-restriction message of server.js. -/
def ownerForbiddenMsg : String :=
  "Owner accounts can only be created manually via SQL for security reasons"

/-- The error string of each failure payload in server.js. -/
def errorMessage : ServerResp → Option String
  | .notConfigured => some "Admin service not configured. Set SUPABASE_SERVICE_ROLE_KEY in .env"
  | .missingFields => some "Missing required fields: email, password, role"
  | .invalidEmail => some "Invalid email format"
  | .passwordTooShort => some "Password must be at least 6 characters"
  | .passwordTooLong => some "Password is too long"
  | .invalidRole => some "Invalid role. Must be owner, admin, or user"
  | .ownerForbidden => some ownerForbiddenMsg
  | .authError m => some m
  | .partialFailure _ m => some ("User created but role assignment failed: " ++ m)
  | .success _ _ _ => none

/-- The user id carried in the response payload, when one is present. -/
def respUserId : ServerResp → Option String
  | .partialFailure i _ => some i
  | .success i _ _ => some i
  | _ => none

/-- The create-user handler of server.js, from the configuration guard down
to the response.  The two external effects are passed in as their outcomes:
authResult is the identity-store account creation (error message, or the
new id and email), profileErr is the role-assignment write (some message on
failure).  The second component records whether the external identity call
was reached. -/
def serverCreateUser (configured : Bool) (req : CreateReq)
    (authResult : Except String (String × String)) (profileErr : Option String) :
    ServerResp × Bool :=
  if !configured then (.notConfigured, false)
  else if isMissing req.email || isMissing req.password || isMissing req.role then
    (.missingFields, false)
  else
    let email := req.email.getD ""
    let password := req.password.getD ""
    let role := req.role.getD ""
    if !validateEmail email then (.invalidEmail, false)
    else if password.length < 6 then (.passwordTooShort, false)
    else if password.length > 128 then (.passwordTooLong, false)
    else if !validateRole role then (.invalidRole, false)
    else if role == "owner" then (.ownerForbidden, false)
    else
      match authResult with
      | .error m => (.authError m, true)
      | .ok (uid, uemail) =>
        match profileErr with
        | some m => (.partialFailure uid m, true)
        | none => (.success uid uemail role, true)

/-- A role-ledger row of the profiles table. -/
structure Profile where
  id : String
  email : String
  role : String
deriving DecidableEq

/-- A store holds one row per inserted profile; the id column is the
primary key. -/
def hasProfile (store : List Profile) (pid : String) : Bool :=
  store.any (fun p => p.id == pid)

/-- The error a primary-key violation raises. -/
def dupKeyMsg : String := "duplicate key value violates unique constraint"

/-- handle_new_user from 001_add_roles.sql: a plain INSERT of the new id
and email with the default user role.  The statement has no conflict
clause, and profiles.id is the primary key, so inserting an id that
already has a row raises a unique-constraint violation instead of doing
nothing. -/
def handleNewUser (store : List Profile) (pid email : String) :
    Except String (List Profile) :=
  if hasProfile store pid then Except.error dupKeyMsg
  else Except.ok (store ++ [⟨pid, email, "user"⟩])

/-- The USING condition of the policy named Owners can update all profiles
in 001_add_roles.sql: the acting account must have the owner role.  No
clause excludes the acting account updating its own row. -/
def rlsOwnersCanUpdate (actorRole : String) (_actorId _targetId : String) : Bool :=
  actorRole == "owner"

/-- An email of length 255 accepted by the regex of server.js. -/
def longEmail : String := String.mk (List.replicate 250 'a') ++ "@b.co"

/-- A one-account ledger holding a single owner. -/
def ledgerC3 : String → Option String :=
  fun accountId => if accountId == "o1" then some "owner" else none

deriving instance DecidableEq for Except

lemma canManageUser_some (r t : String) :
    canManageUser (some r) t = (r == "owner" || (r == "admin" && t == "user")) := by
  simp only [canManageUser]
  cases h : (r == "owner") with
  | true => simp [h]
  | false =>
    simp only [h, Bool.false_or, if_neg Bool.false_ne_true]
    cases h2 : (r == "admin" && t == "user") <;> simp [h2]

lemma canKickUser_some (r t : String) :
    canKickUser (some r) t = ((r == "owner" && t != "owner") || (r == "admin" && t == "user")) := by
  simp only [canKickUser]
  cases h : (r == "owner" && t != "owner") with
  | true => simp [h]
  | false =>
    simp only [h, Bool.false_or, if_neg Bool.false_ne_true]
    cases h2 : (r == "admin" && t == "user") <;> simp [h2]

/-- C2 counterexample: the claim says a target role of owner is always
refused by the policy function itself, but canManageUser applied to an
owner actor and an owner target returns true; the refusal lives in the
separate owner pre-checks of the callers. -/
theorem c2_counterexample : canManageUser (some "owner") "owner" = true := by decide

/-- C2 amended: canManageUser realizes the three actor rows of the section
4.2 table (owner manages every target, admin only the user role, a user
actor nothing), and the target-owner refusal is contributed by the explicit
owner pre-check of the callers, so the composite decision equals the spec
truth table for all role strings. -/
theorem c2_role_table :
    (∀ t, canManageUser (some "owner") t = true) ∧
    (∀ t, canManageUser (some "admin") t = (t == "user")) ∧
    (∀ t, canManageUser (some "user") t = false) ∧
    (∀ t, canCreateComposite none t = false) ∧
    (∀ a t, canCreateComposite (some a) t = specCanAssignRole a t) := by
  refine ⟨fun t => by simp [canManageUser], fun t => ?_, fun t => ?_, fun t => ?_, fun a t => ?_⟩
  · rw [canManageUser_some]; simp
  · rw [canManageUser_some]; simp
  · simp [canCreateComposite, canManageUser]
  · rw [canCreateComposite, canManageUser_some, specCanAssignRole]
    by_cases ht : t = "owner"
    · simp [ht]
    · have htb : (t == "owner") = false := beq_eq_false_iff_ne.mpr ht
      by_cases ha : a = "owner"
      · simp [ha, htb, bne]
      · have hab : (a == "owner") = false := beq_eq_false_iff_ne.mpr ha
        by_cases ha2 : a = "admin"
        · simp [ha2, htb, hab, bne]
        · have hab2 : (a == "admin") = false := beq_eq_false_iff_ne.mpr ha2
          simp [htb, hab, hab2, bne]

/-- C4: canKickUser is true exactly for an owner actor on a non-owner
target and an admin actor on a user target; in particular a self-targeted
delete is refused for every ledger and every id, and an owner deleting
another owner is refused. -/
theorem c4_delete_policy :
    (∀ r t : String,
        canKickUser (some r) t = ((r == "owner" && t != "owner") || (r == "admin" && t == "user"))) ∧
    (∀ t, canKickUser none t = false) ∧
    (∀ r : String, canKickUser (some r) r = false) ∧
    (∀ (ledger : String → Option String) (a : String) (hs : Bool),
        deleteUserFlow ledger a a hs ≠ DeleteResult.invokeGateway) ∧
    (canKickUser (some "owner") "owner" = false) := by
  have hself : ∀ r : String, canKickUser (some r) r = false := by
    intro r
    rw [canKickUser_some]
    by_cases h : r = "admin"
    · simp [h, bne]
    · have hb : (r == "admin") = false := beq_eq_false_iff_ne.mpr h
      simp [hb, bne]
  refine ⟨fun r t => canKickUser_some r t, fun t => rfl, hself, ?_, by decide⟩
  intro ledger a hs hc
  simp only [deleteUserFlow, clientDeleteUser, effectiveUserRole] at hc
  cases hl : ledger a with
  | none =>
    simp only [hl] at hc
    exact DeleteResult.noConfusion hc
  | some r =>
    simp only [hl, Option.getD_some] at hc
    rw [hself r] at hc
    simp at hc

/-- C7 counterexample: the claim says an unrecognized target role yields
false fail-closed, but an owner actor gets true from both policy functions
on a target role that is not a recognized role. -/
theorem c7_counterexample :
    canManageUser (some "owner") "banana" = true ∧
    canKickUser (some "owner") "banana" = true ∧
    "banana" ∉ roles := by decide

/-- C7 amended: with a null or unknown actor role every policy decision and
every flow is refused fail-closed, and an unrecognized target role is
refused for admin and user actors; an owner actor however accepts every
target value through canManageUser, and every target value other than the
owner literal through canKickUser. -/
theorem c7_fail_closed :
    (∀ t, canManageUser none t = false) ∧
    (∀ t, canKickUser none t = false) ∧
    (∀ (tr : Option String) (nr : String),
        clientUpdateUserRole none tr nr ≠ UpdateRoleResult.proceedUpdate) ∧
    (∀ (tr : Option String) (hs : Bool),
        clientDeleteUser none tr hs ≠ DeleteResult.invokeGateway) ∧
    (∀ t, t ∉ roles →
        canManageUser (some "admin") t = false ∧ canManageUser (some "user") t = false ∧
        canKickUser (some "admin") t = false ∧ canKickUser (some "user") t = false) ∧
    (∀ t, canManageUser (some "owner") t = true) := by
  refine ⟨fun t => rfl, fun t => rfl, ?_, ?_, ?_, fun t => by simp [canManageUser]⟩
  · intro tr nr hc
    simp only [clientUpdateUserRole] at hc
    by_cases h : nr = "owner"
    · simp [h] at hc
    · have hb : (nr == "owner") = false := beq_eq_false_iff_ne.mpr h
      simp [hb, canManageUser] at hc
  · intro tr hs hc
    simp only [clientDeleteUser] at hc
    cases tr with
    | none => simp at hc
    | some t => simp [canKickUser] at hc
  · intro t ht
    have htu : (t == "user") = false := by
      refine beq_eq_false_iff_ne.mpr fun h => ht ?_
      rw [h]; simp [roles]
    rw [canManageUser_some, canManageUser_some, canKickUser_some, canKickUser_some]
    simp [htu]

/-- C7 witness: the amended statement applied to a concrete unrecognized
target role. -/
theorem c7_fail_closed_witness :
    canManageUser (some "admin") "banana" = false ∧ canManageUser (some "user") "banana" = false ∧
    canKickUser (some "admin") "banana" = false ∧ canKickUser (some "user") "banana" = false :=
  c7_fail_closed.2.2.2.2.1 "banana" (by decide)

/-- C10: every pair the delete policy accepts is also accepted by the
management policy, for every actor role value including null and every
target role string. -/
theorem c10_kick_subset_manage :
    ∀ (a : Option String) (t : String),
      canKickUser a t = true → canManageUser a t = true := by
  intro a t h
  cases a with
  | none => simp [canKickUser] at h
  | some r =>
    rw [canKickUser_some] at h
    rw [canManageUser_some]
    rcases Bool.or_eq_true_iff.mp h with h1 | h1
    · exact Bool.or_eq_true_iff.mpr (Or.inl (Bool.and_eq_true_iff.mp h1).1)
    · exact Bool.or_eq_true_iff.mpr (Or.inr h1)

/-- C10 witness: the subset relation applied at a concrete accepted pair. -/
theorem c10_kick_subset_manage_witness : canManageUser (some "owner") "user" = true :=
  c10_kick_subset_manage (some "owner") "user" (by decide)

/-- C3 counterexample: the claim says the role-change operation refuses
every request in which the actor targets their own profile, but an owner
targeting their own id with a demotion to admin passes every check of
updateUserRole and the owner row-level update policy has no self
exclusion. -/
theorem c3_counterexample :
    updateUserRoleFlow ledgerC3 "o1" "o1" "admin" = UpdateRoleResult.proceedUpdate ∧
    rlsOwnersCanUpdate "owner" "o1" "o1" = true := by decide

/-- C3 amended: there is no self-targeting guard in the code; only an owner
can change their own role (the truth table happens to refuse admin and user
actors on their own row), so self-demotion by an owner is possible while
every non-owner self role change is refused. -/
theorem c3_no_self_guard :
    ∀ (ledger : String → Option String) (a nr : String),
      ledger a ≠ some "owner" →
      updateUserRoleFlow ledger a a nr ≠ UpdateRoleResult.proceedUpdate := by
  intro ledger a nr h hc
  simp only [updateUserRoleFlow, clientUpdateUserRole, effectiveUserRole] at hc
  cases hl : ledger a with
  | none =>
    simp only [hl, Option.getD_none] at hc
    by_cases hn : nr = "owner"
    · simp [hn] at hc
    · have hb : (nr == "owner") = false := beq_eq_false_iff_ne.mpr hn
      simp [hb, canManageUser] at hc
  | some r =>
    simp only [hl, Option.getD_some] at hc
    have hro : r ≠ "owner" := fun he => h (he ▸ hl)
    have hrob : (r == "owner") = false := beq_eq_false_iff_ne.mpr hro
    by_cases hn : nr = "owner"
    · simp [hn] at hc
    · have hb : (nr == "owner") = false := beq_eq_false_iff_ne.mpr hn
      by_cases hr : r = "admin"
      · subst hr
        cases hnu : (nr == "user") <;> simp [hb, hnu, canManageUser] at hc
      · have hr2 : (r == "admin") = false := beq_eq_false_iff_ne.mpr hr
        rw [canManageUser_some] at hc
        simp [hb, hr2, hrob] at hc

/-- C3 witness for the amended statement: an admin targeting their own id
cannot change their own role. -/
theorem c3_no_self_guard_witness :
    updateUserRoleFlow (fun _ => some "admin") "a1" "a1" "user" ≠ UpdateRoleResult.proceedUpdate :=
  c3_no_self_guard (fun _ => some "admin") "a1" "user" (by decide)

/-- C1 counterexample: the claim says a request whose caller has no valid
session is rejected with the 401-equivalent before anything else happens,
but a sessionless call with an admin actor and an admin target is rejected
by the role check instead, because createUser checks the session only
after the role checks; the server-side handler performs no session check
at all. -/
theorem c1_counterexample :
    clientCreateUser (some "admin") false "admin" = ClientCreateResult.errCannotAssign ∧
    ClientCreateResult.errCannotAssign ≠ ClientCreateResult.errNoSession := by decide

/-- C1 amended: the HTTP handler in server.js performs no session check
and can never answer 401; the client-side createUser does reject callers
failing the create policy and callers without a session before the gateway
endpoint is invoked, but the session check runs after the role checks
rather than first. -/
theorem c1_create_user_auth_order :
    (∀ (ur : Option String) (hs : Bool) (role : String),
        (clientCreateUser ur hs role = ClientCreateResult.invokeGateway →
          hs = true ∧ canManageUser ur role = true ∧ role ≠ "owner") ∧
        (hs = false → clientCreateUser ur hs role ≠ ClientCreateResult.invokeGateway)) ∧
    (∀ (c : Bool) (req : CreateReq) (ar : Except String (String × String)) (pe : Option String),
        statusOf (serverCreateUser c req ar pe).1 ≠ 401) := by
  constructor
  · intro ur hs role
    have ha : clientCreateUser ur hs role = ClientCreateResult.invokeGateway →
        hs = true ∧ canManageUser ur role = true ∧ role ≠ "owner" := by
      intro h
      simp only [clientCreateUser] at h
      split_ifs at h with h1 h2 h3 h4
      simp only [Bool.not_eq_true, Bool.not_eq_false'] at h3 h4
      simp only [beq_iff_eq] at h2
      exact ⟨h4, h3, h2⟩
    refine ⟨ha, fun hf hc => ?_⟩
    have := (ha hc).1
    rw [hf] at this
    exact Bool.false_ne_true this
  · intro c req ar pe
    have key : ∀ resp : ServerResp, statusOf resp ≠ 401 := by
      intro resp; cases resp <;> simp [statusOf]
    exact key _

/-- C1 witness: the amended statement applied at a sessionless concrete
call. -/
theorem c1_create_user_auth_order_witness :
    clientCreateUser (some "user") false "user" ≠ ClientCreateResult.invokeGateway :=
  (c1_create_user_auth_order.1 (some "user") false "user").2 rfl

/-- C5 counterexample: the claim quantifies over every create-user request
with requested role owner, but a request with an invalid email and
requested role owner is answered by the 400 validation error, not the 403
owner restriction, because validation precedes the owner check; moreover
the client-side createUser answers a non-admin caller requesting owner
with the generic unauthorized error because the isAdmin check precedes the
owner check. -/
theorem c5_counterexample :
    serverCreateUser true ⟨some "bad", some "secret1", some "owner"⟩ (Except.error "") none
      = (ServerResp.invalidEmail, false) ∧
    statusOf ServerResp.invalidEmail = 400 ∧
    clientCreateUser (some "user") true "owner" = ClientCreateResult.errOnlyAdmins := by decide

/-- C5 amended: every create-user request with requested role owner that
passes the preceding handler checks is answered 403 with the specific
owner-restriction message before any external call, regardless of caller
role, and every 403 the handler produces is that owner restriction, never
a generic authorization error. -/
theorem c5_owner_restriction (e p : String) (ar : Except String (String × String))
    (pe : Option String)
    (he : validateEmail e = true) (hp1 : 6 ≤ p.length) (hp2 : p.length ≤ 128) :
    serverCreateUser true ⟨some e, some p, some "owner"⟩ ar pe
      = (ServerResp.ownerForbidden, false) ∧
    statusOf ServerResp.ownerForbidden = 403 ∧
    errorMessage ServerResp.ownerForbidden = some ownerForbiddenMsg ∧
    (∀ (c : Bool) (req : CreateReq) (ar2 : Except String (String × String)) (pe2 : Option String),
        statusOf (serverCreateUser c req ar2 pe2).1 = 403 →
          (serverCreateUser c req ar2 pe2).1 = ServerResp.ownerForbidden) := by
  have hne : e ≠ "" := by
    intro h; rw [h] at he; exact absurd he (by decide)
  have hpn : p ≠ "" := by
    intro h; rw [h] at hp1; exact absurd hp1 (by decide)
  have heb : (e == "") = false := beq_eq_false_iff_ne.mpr hne
  have hpb : (p == "") = false := beq_eq_false_iff_ne.mpr hpn
  have h6 : ¬(p.length < 6) := by omega
  have h128 : ¬(p.length > 128) := by omega
  have hvr : validateRole "owner" = true := by decide
  have hob : (("owner" : String) == "") = false := by decide
  refine ⟨?_, rfl, rfl, ?_⟩
  · simp [serverCreateUser, isMissing, Option.getD_some, heb, hpb, hob, he, h6, h128, hvr]
  · intro c req ar2 pe2 h
    have key : ∀ resp : ServerResp, statusOf resp = 403 → resp = ServerResp.ownerForbidden := by
      intro resp; cases resp <;> simp [statusOf]
    exact key _ h

/-- C5 witness: the amended statement at a concrete valid request body. -/
theorem c5_owner_restriction_witness :
    serverCreateUser true ⟨some "a@b.co", some "secret1", some "owner"⟩ (Except.error "") none
      = (ServerResp.ownerForbidden, false) :=
  (c5_owner_restriction "a@b.co" "secret1" (Except.error "") none (by decide) (by decide)
    (by decide)).1

/-- C9: when the identity store creates the account and the subsequent
role write fails, the handler answers 500 carrying the new account id and
the failure message appended to a fixed explanation, while a clean
identity-store failure is answered 400 with no account id in the
payload. -/
theorem c9_partial_success (e p r uid uem m : String)
    (pe2 : Option String)
    (he : validateEmail e = true) (hp1 : 6 ≤ p.length) (hp2 : p.length ≤ 128)
    (hr : validateRole r = true) (hro : r ≠ "owner") :
    serverCreateUser true ⟨some e, some p, some r⟩ (Except.ok (uid, uem)) (some m)
      = (ServerResp.partialFailure uid m, true) ∧
    statusOf (ServerResp.partialFailure uid m) = 500 ∧
    respUserId (ServerResp.partialFailure uid m) = some uid ∧
    errorMessage (ServerResp.partialFailure uid m)
      = some ("User created but role assignment failed: " ++ m) ∧
    serverCreateUser true ⟨some e, some p, some r⟩ (Except.error m) pe2
      = (ServerResp.authError m, true) ∧
    statusOf (ServerResp.authError m) = 400 ∧
    respUserId (ServerResp.authError m) = none := by
  have hne : e ≠ "" := by
    intro h; rw [h] at he; exact absurd he (by decide)
  have hpn : p ≠ "" := by
    intro h; rw [h] at hp1; exact absurd hp1 (by decide)
  have hrn : r ≠ "" := by
    intro h; rw [h] at hr; exact absurd hr (by decide)
  have heb : (e == "") = false := beq_eq_false_iff_ne.mpr hne
  have hpb : (p == "") = false := beq_eq_false_iff_ne.mpr hpn
  have hrb : (r == "") = false := beq_eq_false_iff_ne.mpr hrn
  have hrob : (r == "owner") = false := beq_eq_false_iff_ne.mpr hro
  have h6 : ¬(p.length < 6) := by omega
  have h128 : ¬(p.length > 128) := by omega
  refine ⟨?_, rfl, rfl, rfl, ?_, rfl, rfl⟩
  · simp [serverCreateUser, isMissing, Option.getD_some, heb, hpb, hrb, he, h6, h128, hr, hrob]
  · simp [serverCreateUser, isMissing, Option.getD_some, heb, hpb, hrb, he, h6, h128, hr, hrob]

/-- C9 witness: the partial-failure behavior at a concrete request. -/
theorem c9_partial_success_witness :
    serverCreateUser true ⟨some "a@b.co", some "secret1", some "user"⟩
        (Except.ok ("u1", "a@b.co")) (some "boom")
      = (ServerResp.partialFailure "u1" "boom", true) :=
  (c9_partial_success "a@b.co" "secret1" "user" "u1" "a@b.co" "boom" none
    (by decide) (by decide) (by decide) (by decide) (by decide)).1

/-- C6 counterexample: the claim says a second ledger create for an id
that already has a Profile is a silent no-op, but handle_new_user is a
plain insert against the primary key, so the second call raises a
uniqueness violation instead of returning the unchanged store. -/
theorem c6_counterexample :
    handleNewUser [⟨"u1", "a@b.co", "user"⟩] "u1" "a@b.co" = Except.error dupKeyMsg ∧
    handleNewUser [⟨"u1", "a@b.co", "user"⟩] "u1" "a@b.co"
      ≠ Except.ok [⟨"u1", "a@b.co", "user"⟩] := by decide

/-- C6 amended: invoking the ledger create a second time for an account id
that already has a Profile raises the primary-key violation rather than
succeeding silently; the insert is rejected, so exactly one Profile row for
that id remains and it is unchanged. -/
theorem c6_insert_second_call_errors (store : List Profile) (pid e1 e2 : String)
    (h : hasProfile store pid = false) :
    handleNewUser store pid e1 = Except.ok (store ++ [⟨pid, e1, "user"⟩]) ∧
    handleNewUser (store ++ [⟨pid, e1, "user"⟩]) pid e2 = Except.error dupKeyMsg ∧
    (store ++ [(⟨pid, e1, "user"⟩ : Profile)]).filter (fun q => q.id == pid)
      = [(⟨pid, e1, "user"⟩ : Profile)] := by
  have h2 : hasProfile (store ++ [⟨pid, e1, "user"⟩]) pid = true := by
    simp [hasProfile, List.any_append]
  refine ⟨by simp [handleNewUser, h], by simp [handleNewUser, h2], ?_⟩
  have hnil : store.filter (fun q => q.id == pid) = [] := by
    simp only [hasProfile, List.any_eq_false] at h
    rw [List.filter_eq_nil_iff]
    exact h
  rw [List.filter_append, hnil]
  simp

/-- C6 witness: the amended statement at a concrete empty store. -/
theorem c6_insert_second_call_errors_witness :
    handleNewUser ([] : List Profile) "u1" "a@b.co" = Except.ok [⟨"u1", "a@b.co", "user"⟩] :=
  (c6_insert_second_call_errors [] "u1" "a@b.co" "x@y.co" (by decide)).1

set_option maxRecDepth 8192 in
/-- C8 counterexample: the claim says an email longer than 254 characters
is rejected with 400 and no external account is created, but the live
handler uses the regex-only validator, so a 255-character email passes
validation, the external call is made, and the request succeeds. -/
theorem c8_counterexample :
    254 < longEmail.length ∧ validateEmail longEmail = true ∧
    securityValidateEmail longEmail = false ∧
    serverCreateUser true ⟨some longEmail, some "secret1", some "user"⟩
        (Except.ok ("id1", "x")) none = (ServerResp.success "id1" "x" "user", true) := by decide

/-- C8 amended: the handler validates before any external identity call
and answers 400 when the email fails the shape regex, the password length
is outside six to 128, or the role is unrecognized, and in those cases the
external call is never made; the 254-character email bound however exists
only in the unused security module validator, and the live handler accepts
longer regex-matching emails. -/
theorem c8_validation_before_external :
    (∀ (c : Bool) (e p r : String) (ar : Except String (String × String)) (pe : Option String),
        (serverCreateUser c ⟨some e, some p, some r⟩ ar pe).2 = true →
          validateEmail e = true ∧ 6 ≤ p.length ∧ p.length ≤ 128 ∧
          validateRole r = true ∧ r ≠ "owner") ∧
    (∀ (c : Bool) (req : CreateReq) (ar : Except String (String × String)) (pe : Option String),
        req.email = none ∨ req.password = none ∨ req.role = none →
          (serverCreateUser c req ar pe).2 = false) ∧
    (∀ (e p r : String) (ar : Except String (String × String)) (pe : Option String),
        (e == "") = false → (p == "") = false → (r == "") = false →
        (validateEmail e = false ∨ p.length < 6 ∨ 128 < p.length ∨ validateRole r = false) →
          statusOf (serverCreateUser true ⟨some e, some p, some r⟩ ar pe).1 = 400 ∧
          (serverCreateUser true ⟨some e, some p, some r⟩ ar pe).2 = false) ∧
    (∀ e, securityValidateEmail e = (validateEmail e && e.length ≤ 254)) := by
  refine ⟨?_, ?_, ?_, fun e => rfl⟩
  · intro c e p r ar pe h
    simp only [serverCreateUser, Option.getD_some, isMissing] at h
    split_ifs at h with h1 h2 h3 h4 h5 h6 h7
    simp only [Bool.not_eq_true, Bool.not_eq_false'] at h3
    simp only [Bool.not_eq_true, Bool.not_eq_false'] at h6
    simp only [beq_iff_eq] at h7
    exact ⟨h3, by omega, by omega, h6, h7⟩
  · intro c req ar pe hmiss
    obtain ⟨oe, op, orr⟩ := req
    cases c with
    | false => simp [serverCreateUser]
    | true =>
      rcases hmiss with h | h | h <;>
        (simp only at h; subst h; simp [serverCreateUser, isMissing])
  · intro e p r ar pe he hp hr hdisj
    simp only [serverCreateUser, Option.getD_some, isMissing]
    by_cases h1 : validateEmail e
    · simp only [h1]
      by_cases h2 : p.length < 6
      · simp [he, hp, hr, h1, h2, statusOf]
      · by_cases h3 : p.length > 128
        · simp [he, hp, hr, h1, h2, h3, statusOf]
        · have hr4 : validateRole r = false := by
            rcases hdisj with h | h | h | h
            · rw [h1] at h; exact absurd h (by decide)
            · exact absurd h h2
            · exact absurd h h3
            · exact h
          simp [he, hp, hr, h1, h2, h3, hr4, statusOf]
    · have h1f : validateEmail e = false := by
        cases hv : validateEmail e
        · rfl
        · exact absurd hv h1
      simp [he, hp, hr, h1f, statusOf]

/-- C8 witness: the amended statement at a concrete invalid email. -/
theorem c8_validation_before_external_witness :
    statusOf (serverCreateUser true ⟨some "aa", some "secret1", some "user"⟩
        (Except.error "") none).1 = 400 ∧
    (serverCreateUser true ⟨some "aa", some "secret1", some "user"⟩
        (Except.error "") none).2 = false :=
  c8_validation_before_external.2.2.1 "aa" "secret1" "user" (Except.error "") none
    (by decide) (by decide) (by decide) (Or.inl (by decide))
